import Mathlib

/-!
Shallow embedding of `ingest.py` from the vectara-crawler repository.

The source file drives a one-shot ingestion pass: it validates environment
variables, loads a configuration document, overlays environment-sourced
identity fields, resolves a crawler plugin by a naming convention
(`instantiate_crawler`), optionally resets the destination corpus
(`reset_corpus`, guarded by a hard-coded flag), and invokes the crawler's
`crawl()` entry point.

The embedding models Python strings as Lean `String` (with the relevant
Python string operations defined on `List Char`), the process environment,
the config-file loader and the importable-module universe as finite
association lists inside a `World`, and every externally observable action
(log lines, HTTP calls, sleeping, constructor invocation, the crawl call)
as an `Event` trace.  Exceptions escaping `main` are modelled by the
`Outcome` type; `Outcome.normal` means `main` returned without raising.
-/

/-! ## Python string primitives -/

/-- The 26 lowercase ASCII letters; used to state which crawler-type names
are considered valid identifiers. -/
def lowerAlphabet : List Char :=
  ['a', 'b', 'c', 'd', 'e', 'f', 'g', 'h', 'i', 'j', 'k', 'l', 'm',
   'n', 'o', 'p', 'q', 'r', 's', 't', 'u', 'v', 'w', 'x', 'y', 'z']

/-- Boolean check that the first list is an initial segment of the second. -/
def isPrefixL : List Char → List Char → Bool
  | [], _ => true
  | _ :: _, [] => false
  | a :: as, b :: bs => a == b && isPrefixL as bs

/-- The part of the first list that comes before the first occurrence of the
(nonempty) second list, or the whole first list when there is no occurrence.
This is `s.split(sep)[0]` from Python. -/
def splitFirstAux : List Char → List Char → List Char
  | [], _ => []
  | c :: rest, sep => if isPrefixL sep (c :: rest) then [] else c :: splitFirstAux rest sep

/-- Python `s.split(sep)[0]` for a nonempty separator. -/
def pySplitHead (s sep : String) : String := ⟨splitFirstAux s.data sep.data⟩

/-- Python `s.lower()` (ASCII). -/
def pyLower (s : String) : String := ⟨s.data.map Char.toLower⟩

/-- Python `s.capitalize()` on the character list: first character uppercased,
all remaining characters lowercased. -/
def capitalizeL : List Char → List Char
  | [] => []
  | c :: rest => c.toUpper :: rest.map Char.toLower

/-- Python `s.capitalize()`. -/
def pyCapitalize (s : String) : String := ⟨capitalizeL s.data⟩

/-- Python `s[:n]` (never raises, truncates at the end of the string). -/
def pyTake (n : Nat) (s : String) : String := ⟨s.data.take n⟩

/-- How Python's f-string renders an `os.environ.get` result: the string
itself, or `None` for a missing variable. -/
def pyOptStr : Option String → String
  | none => "None"
  | some s => s

/-- Truthiness test used by `if not x:` on an optional string: `None` and the
empty string are falsy. -/
def pyFalsy : Option String → Bool
  | none => true
  | some s => s == ""

def isPySpace (c : Char) : Bool := c == ' ' || c == '\t' || c == '\n' || c == '\r'

def isAsciiDigit (c : Char) : Bool := '0' ≤ c && c ≤ '9'

/-- Value of a base-10 digit list. -/
def digitsVal (l : List Char) : Nat := l.foldl (fun a c => 10 * a + (c.toNat - 48)) 0

/-- Strip leading and trailing whitespace. -/
def pyStrip (l : List Char) : List Char :=
  ((l.dropWhile isPySpace).reverse.dropWhile isPySpace).reverse

/-- Python `int(s)` in base 10: optional surrounding whitespace, an optional
sign, then a nonempty digit string; anything else raises `ValueError`,
modelled as `none`.  (Digit-group underscores, unused by this repository's
inputs, are not modelled.) -/
def pyIntOfString (s : String) : Option Int :=
  match pyStrip s.data with
  | [] => none
  | '+' :: ds =>
    if !ds.isEmpty && ds.all isAsciiDigit then some ((digitsVal ds : Nat) : Int) else none
  | '-' :: ds =>
    if !ds.isEmpty && ds.all isAsciiDigit then some (-((digitsVal ds : Nat) : Int)) else none
  | ds =>
    if ds.all isAsciiDigit then some ((digitsVal ds : Nat) : Int) else none

/-! ## Data model -/

/-- The `vectara` section of the loaded configuration document.  Every field
the source reads or writes is present; `none` models a key missing from the
document (reading it raises, `OmegaConf`-style). -/
structure VectaraFile where
  api_key : Option String
  customer_id : Option String
  corpus_id : Option Int
  endpoint : Option String
  auth_url : Option String
  auth_id : Option String
  auth_secret : Option String
deriving DecidableEq

/-- The `crawling` section of the configuration document. -/
structure CrawlingFile where
  crawler_type : Option String
deriving DecidableEq

/-- A loaded hierarchical configuration document. -/
structure ConfigFile where
  vectara : VectaraFile
  crawling : CrawlingFile
deriving DecidableEq

/-- The positional arguments the source passes to the resolved crawler class:
`(cfg, endpoint, customer_id, corpus_id, api_key)`.  The customer id is the
environment string; the corpus id has been coerced with `int(...)`. -/
structure CrawlerArgs where
  config : ConfigFile
  endpoint : String
  customerId : String
  corpusId : Int
  apiKey : String
deriving DecidableEq

/-- A Python class object, abstracted to the data the source inspects:
`issubclass` is modelled by the list of (transitive) superclass names,
which includes the class itself. -/
structure PyClass where
  superclasses : List String
deriving DecidableEq

/-- An importable module, abstracted to its class-valued attributes. -/
structure PyModule where
  attrs : List (String × PyClass)
deriving DecidableEq

/-- The universe of importable modules, keyed by dotted module path;
a missing key models `ModuleNotFoundError` from `importlib.import_module`. -/
abbrev ModuleRegistry := List (String × PyModule)

/-- A constructed crawler instance. -/
structure CrawlerInstance where
  className : String
  args : CrawlerArgs
deriving DecidableEq

/-- Exceptions that plugin resolution can raise: `ModuleNotFoundError`,
`AttributeError` (the spec groups these two as `PluginNotFound`), and
`TypeError` for a class that is not a subclass of the base class (the
spec's `TypeMismatch`), carrying the found type and required base names. -/
inductive ResolveError where
  | moduleNotFound (moduleName : String)
  | attributeNotFound (className : String)
  | typeMismatch (className : String) (baseName : String)
deriving DecidableEq

/-- Whether a resolution failure is in the spec's `PluginNotFound` class
(module or class attribute does not exist). -/
def ResolveError.isPluginNotFound : ResolveError → Bool
  | ResolveError.moduleNotFound _ => true
  | ResolveError.attributeNotFound _ => true
  | ResolveError.typeMismatch _ _ => false

/-- Externally observable actions of a run, in order. -/
inductive Event where
  | logInfo (msg : String)
  | logError (msg : String)
  | tokenFetch
  | resetPost (status : Nat)
  | sleep (seconds : Nat)
  | construct (className : String) (args : CrawlerArgs)
  | crawl
deriving DecidableEq

/-- Network calls: the OAuth token fetch, the reset POST, and the crawl
(which performs the ingestion pass against the service). -/
def Event.isNet : Event → Bool
  | Event.tokenFetch => true
  | Event.resetPost _ => true
  | Event.crawl => true
  | _ => false

def Event.isTokenFetch : Event → Bool
  | Event.tokenFetch => true
  | _ => false

def Event.isResetPost : Event → Bool
  | Event.resetPost _ => true
  | _ => false

def Event.isCrawl : Event → Bool
  | Event.crawl => true
  | _ => false

def Event.isConstruct : Event → Bool
  | Event.construct _ _ => true
  | _ => false

/-- How a run of `main` ends: a plain return, or one of the exceptions that
can escape it uncaught. -/
inductive Outcome where
  | normal
  | configLoadError (path : String)
  | valueError (s : String)
  | configAttrError (key : String)
  | resolveError (e : ResolveError)
  | authError
  | crawlError
deriving DecidableEq

/-- The observable result of a run: its event trace and how it ended. -/
structure RunResult where
  events : List Event
  outcome : Outcome
deriving DecidableEq

/-- Result of `get_jwt_token`: the bearer token, or an `AuthError` raised by
the OAuth exchange. -/
inductive TokenOutcome where
  | ok (token : String)
  | authError
deriving DecidableEq

/-- The ambient state a run interacts with: the process environment, the
loadable config documents, the importable modules, `os.path.abspath`, the
initial `sys.path`, and the responses of the remote service (token
exchange, reset POST status and body, and whether `crawl()` returns). -/
structure World where
  env : List (String × String)
  configFiles : List (String × ConfigFile)
  modules : ModuleRegistry
  abspath : String → String
  sysPath : List String
  tokenResult : TokenOutcome
  resetStatus : Nat
  resetBody : String
  crawlOk : Bool

/-! ## The plugin resolver (`instantiate_crawler`, ingest.py lines 14-28) -/

/-- The module path the source derives from the supplied class name:
`f"{folder_name}.{class_name.split('Crawler')[0].lower()}_crawler"`. -/
def deriveModuleName (folder className : String) : String :=
  folder ++ "." ++ pyLower (pySplitHead className "Crawler") ++ "_crawler"

/-- Output of the resolver: the mutated `sys.path`, the events it performed,
and the constructed instance or the exception raised. -/
structure ResolveOut where
  sysPath : List String
  events : List Event
  result : Except ResolveError CrawlerInstance

/-- `instantiate_crawler(base_class, folder_name, class_name, *args)`:
prepends the absolutized folder to `sys.path`, derives the module path,
imports it, fetches the class attribute, checks `issubclass` against the
base class, and only then calls the constructor.  `apFolder` is
`os.path.abspath(folder_name)` (the absolutization itself is an OS lookup,
supplied by the caller from `World.abspath`). -/
def instantiate_crawler (mods : ModuleRegistry) (base : String) (apFolder : String)
    (folder className : String) (args : CrawlerArgs) (sysPath : List String) : ResolveOut :=
  let sysPath' := apFolder :: sysPath
  let moduleName := deriveModuleName folder className
  let er : List Event × Except ResolveError CrawlerInstance :=
    match List.lookup moduleName mods with
    | none => ([], Except.error (ResolveError.moduleNotFound moduleName))
    | some md =>
      match List.lookup className md.attrs with
      | none => ([], Except.error (ResolveError.attributeNotFound className))
      | some cls =>
        if cls.superclasses.contains base then
          ([Event.construct className args], Except.ok ⟨className, args⟩)
        else
          ([], Except.error (ResolveError.typeMismatch className base))
  ⟨sysPath', er.1, er.2⟩

/-! ## Credential provider and destination reset (ingest.py lines 30-64) -/

/-- `get_jwt_token(auth_url, auth_id, auth_secret, customer_id)`: one OAuth2
client-credentials exchange; the outcome comes from the world. -/
def get_jwt_token (w : World) (auth_url auth_id auth_secret customer_id : String) :
    List Event × TokenOutcome :=
  ([Event.tokenFetch], w.tokenResult)

/-- `reset_corpus(endpoint, customer_id, corpus_id, auth_url, auth_id,
auth_secret)`: fetch a token, POST to the reset path, log success on HTTP
200 and log an error (without raising) on any other status.  The second
component is `none` when the call returns normally, and the escaping
outcome when the token fetch raises. -/
def reset_corpus (w : World) (endpoint customer_id : String) (corpus_id : Int)
    (auth_url auth_id auth_secret : String) : List Event × Option Outcome :=
  let tk := get_jwt_token w auth_url auth_id auth_secret customer_id
  match tk.2 with
  | TokenOutcome.authError => (tk.1, some Outcome.authError)
  | TokenOutcome.ok _ =>
    let ev := tk.1 ++ [Event.resetPost w.resetStatus]
    if w.resetStatus == 200 then
      (ev ++ [Event.logInfo ("Reset corpus " ++ toString corpus_id)], none)
    else
      (ev ++ [Event.logError ("Error resetting corpus: " ++ toString w.resetStatus
        ++ " " ++ w.resetBody)], none)

/-! ## The orchestrator (`main`, ingest.py lines 67-145) -/

/-- Overlaying the environment-sourced identity fields onto the loaded
configuration (ingest.py lines 112-114): unconditional assignment, with the
corpus id already coerced by `int(...)`. -/
def mergeEnv (cfg : ConfigFile) (api_key customer_id : String) (corpus_id : Int) : ConfigFile :=
  { cfg with vectara := { cfg.vectara with
      api_key := some api_key
      customer_id := some customer_id
      corpus_id := some corpus_id } }

/-- The tail of the run (ingest.py lines 143-145): the start marker, the
blocking `crawl()` call, and the finish marker when the crawl returns. -/
def crawlPhase (w : World) (events : List Event) (crawler_type : String) : RunResult :=
  let ev := events ++ [Event.logInfo ("Starting crawl of type " ++ crawler_type ++ "..."),
    Event.crawl]
  if w.crawlOk then
    ⟨ev ++ [Event.logInfo ("Finished crawl of type " ++ crawler_type ++ "...")], Outcome.normal⟩
  else
    ⟨ev, Outcome.crawlError⟩

/-- Ingest.py lines 118-145, starting from the values read back out of the
merged configuration: the settings log lines, crawler resolution and
instantiation, the optional corpus reset with its settle sleep, and the
crawl call. -/
def runCrawlerPhase (w : World) (reset_corpus_flag : Bool) (events : List Event)
    (cfg' : ConfigFile) (endpoint customer_id : String) (corpus_id : Int)
    (api_key crawler_type : String) : RunResult :=
  let log3 := events ++ [Event.logInfo ("Endpoint: " ++ endpoint),
    Event.logInfo ("Customer ID: " ++ customer_id),
    Event.logInfo ("Corpus ID: " ++ toString corpus_id),
    Event.logInfo ("API Key: " ++ pyTake 5 api_key ++ "..."),
    Event.logInfo ("Crawler Type: " ++ crawler_type)]
  let class_name := pyCapitalize crawler_type ++ "Crawler"
  let args : CrawlerArgs := ⟨cfg', endpoint, customer_id, corpus_id, api_key⟩
  let r := instantiate_crawler w.modules "Crawler" (w.abspath "crawlers")
    "crawlers" class_name args w.sysPath
  match r.result with
  | Except.error e => ⟨log3 ++ r.events, Outcome.resolveError e⟩
  | Except.ok _ =>
    let log4 := log3 ++ r.events
      ++ [Event.logInfo ("Instantiated " ++ pyCapitalize crawler_type ++ "Crawler")]
    if reset_corpus_flag then
      let log5 := log4 ++ [Event.logInfo "Resetting corpus"]
      match cfg'.vectara.auth_url, cfg'.vectara.auth_id, cfg'.vectara.auth_secret with
      | some auth_url, some auth_id, some auth_secret =>
        let rc := reset_corpus w endpoint customer_id corpus_id auth_url auth_id auth_secret
        match rc.2 with
        | some failure => ⟨log5 ++ rc.1, failure⟩
        | none => crawlPhase w (log5 ++ rc.1 ++ [Event.sleep 5]) crawler_type
      | _, _, _ => ⟨log5, Outcome.configAttrError "auth"⟩
    else
      crawlPhase w log4 crawler_type

/-- `main()` (named `mainRun` because Lean reserves `main` for executables),
with the hard-coded `reset_corpus_flag` local (ingest.py line 138, `False`
in the source; enabling it is the documented debugging edit) lifted to a
parameter. -/
def mainRun (w : World) (reset_corpus_flag : Bool) : RunResult :=
  let config_name := List.lookup "CONFIG_FILE" w.env
  let profile_name := List.lookup "PROFILE" w.env
  let log0 : List Event := [Event.logInfo "Starting ingest.py",
    Event.logInfo ("Config file: " ++ pyOptStr config_name),
    Event.logInfo ("Profile name: " ++ pyOptStr profile_name)]
  if pyFalsy config_name then
    ⟨log0 ++ [Event.logError "CONFIG_FILE environment variable not set"], Outcome.normal⟩
  else if pyFalsy profile_name then
    ⟨log0 ++ [Event.logError "PROFILE environment variable not set"], Outcome.normal⟩
  else
    -- Both branches below are reachable only with `config_name = some cn`,
    -- `cn` nonempty, so the `getD ""` default is never the value used.
    let cn := config_name.getD ""
    match List.lookup cn w.configFiles with
    | none => ⟨log0, Outcome.configLoadError cn⟩
    | some cfg =>
      let log1 := log0 ++ [Event.logInfo "Loaded configuration"]
      let vectara_api_key := List.lookup "VECTARA_API_KEY" w.env
      let vectara_customer_id := List.lookup "VECTARA_CUSTOMER_ID" w.env
      let vectara_corpus_id := List.lookup "VECTARA_CORPUS_ID" w.env
      if pyFalsy vectara_api_key then
        ⟨log1 ++ [Event.logError "VECTARA_API_KEY environment variable not set"], Outcome.normal⟩
      else if pyFalsy vectara_customer_id then
        ⟨log1 ++ [Event.logError "VECTARA_CUSTOMER_ID environment variable not set"],
          Outcome.normal⟩
      else if pyFalsy vectara_corpus_id then
        ⟨log1 ++ [Event.logError "VECTARA_CORPUS_ID environment variable not set"],
          Outcome.normal⟩
      else
        let api_key_env := vectara_api_key.getD ""
        let customer_env := vectara_customer_id.getD ""
        let corpus_env := vectara_corpus_id.getD ""
        match pyIntOfString corpus_env with
        | none => ⟨log1, Outcome.valueError corpus_env⟩
        | some corpus_num =>
          let cfg' := mergeEnv cfg api_key_env customer_env corpus_num
          let log2 := log1 ++ [Event.logInfo "Updated configuration with environment variables"]
          let endpoint := cfg'.vectara.endpoint.getD "api.vectara.io"
          match cfg'.vectara.customer_id, cfg'.vectara.corpus_id, cfg'.vectara.api_key with
          | some customer_id, some corpus_id, some api_key =>
            match cfg'.crawling.crawler_type with
            | none => ⟨log2, Outcome.configAttrError "crawler_type"⟩
            | some crawler_type =>
              runCrawlerPhase w reset_corpus_flag log2 cfg' endpoint customer_id corpus_id
                api_key crawler_type
          | _, _, _ => ⟨log2, Outcome.configAttrError "vectara"⟩

/-! ## Concrete worlds used by the scenario claims and witnesses -/

/-- The end-to-end scenario environment from the spec. -/
def scenarioEnv : List (String × String) :=
  [("CONFIG_FILE", "cfg.yaml"), ("PROFILE", "p"), ("VECTARA_API_KEY", "k"),
   ("VECTARA_CUSTOMER_ID", "1000"), ("VECTARA_CORPUS_ID", "7")]

/-- A config document declaring `crawling.crawler_type: website` with no
endpoint override. -/
def scenarioFile : ConfigFile :=
  ⟨⟨none, none, none, none, none, none, none⟩, ⟨some "website"⟩⟩

/-- The `WebsiteCrawler` class, a subclass of the `Crawler` base. -/
def websiteClass : PyClass := ⟨["WebsiteCrawler", "Crawler", "object"]⟩

/-- A module universe holding `crawlers/website_crawler.py`. -/
def scenarioModules : ModuleRegistry :=
  [("crawlers.website_crawler", ⟨[("WebsiteCrawler", websiteClass)]⟩)]

def scenarioWorld : World :=
  { env := scenarioEnv, configFiles := [("cfg.yaml", scenarioFile)],
    modules := scenarioModules, abspath := fun s => "/app/" ++ s, sysPath := [],
    tokenResult := TokenOutcome.authError, resetStatus := 0, resetBody := "",
    crawlOk := true }

/-- The scenario configuration after the environment overlay. -/
def scenarioMerged : ConfigFile :=
  ⟨⟨some "k", some "1000", some 7, none, none, none, none⟩, ⟨some "website"⟩⟩

/-- The constructor arguments in the end-to-end scenario. -/
def scenarioArgs : CrawlerArgs := ⟨scenarioMerged, "api.vectara.io", "1000", 7, "k"⟩

/-! ## Valid crawler-type names and the naming-convention derivation -/

/-- A valid logical crawler-type name: a nonempty all-lowercase ASCII
identifier that does not itself begin with the reserved stem `crawler`
(such a stem would collide with the suffix-stripping convention). -/
def ValidTypeName (T : String) : Prop :=
  T.data ≠ [] ∧ (∀ c ∈ T.data, c ∈ lowerAlphabet) ∧ isPrefixL "crawler".data T.data = false

lemma mem_lower_toLower {c : Char} (h : c ∈ lowerAlphabet) : c.toLower = c := by
  fin_cases h <;> decide

lemma mem_lower_upper_toLower {c : Char} (h : c ∈ lowerAlphabet) : c.toUpper.toLower = c := by
  fin_cases h <;> decide

lemma mem_lower_beq_C {c : Char} (h : c ∈ lowerAlphabet) : (c == 'C') = false := by
  fin_cases h <;> decide

lemma mem_lower_C_beq {c : Char} (h : c ∈ lowerAlphabet) : ('C' == c) = false := by
  fin_cases h <;> decide

lemma mem_lower_C_beq_upper {c : Char} (h : c ∈ lowerAlphabet) (hc : c ≠ 'c') :
    ('C' == c.toUpper) = false := by
  fin_cases h <;> first | exact absurd rfl hc | decide

lemma map_toLower_of_lower {l : List Char} (h : ∀ c ∈ l, c ∈ lowerAlphabet) :
    l.map Char.toLower = l := by
  induction l with
  | nil => rfl
  | cons c cs ih =>
    simp only [List.map_cons]
    rw [mem_lower_toLower (h c (List.mem_cons_self c cs)),
      ih (fun d hd => h d (List.mem_cons_of_mem c hd))]

lemma isPrefixL_append_C_false {pat : List Char} (hp : ∀ c ∈ pat, c ∈ lowerAlphabet) :
    ∀ t, isPrefixL pat t = false → ∀ rest, isPrefixL pat (t ++ 'C' :: rest) = false := by
  induction pat with
  | nil => intro t h rest; simp [isPrefixL] at h
  | cons p ps ih =>
    intro t h rest
    cases t with
    | nil =>
      have hpC : (p == 'C') = false := mem_lower_beq_C (hp p (List.mem_cons_self p ps))
      simp [isPrefixL, hpC]
    | cons a as =>
      by_cases hpa : (p == a) = true
      · simp only [isPrefixL, hpa, Bool.true_and] at h ⊢
        exact ih (fun d hd => hp d (List.mem_cons_of_mem p hd)) as h rest
      · have : (p == a) = false := by
          cases hb : (p == a) with
          | false => rfl
          | true => exact absurd hb hpa
        simp [isPrefixL, this]

lemma splitFirstAux_lower_append {l : List Char} (h : ∀ c ∈ l, c ∈ lowerAlphabet) :
    splitFirstAux (l ++ "Crawler".data) "Crawler".data = l := by
  induction l with
  | nil => decide
  | cons c cs ih =>
    have hc : ('C' == c) = false := mem_lower_C_beq (h c (List.mem_cons_self c cs))
    have hD : "Crawler".data = 'C' :: "rawler".data := rfl
    have hfirst : isPrefixL "Crawler".data (c :: (cs ++ "Crawler".data)) = false := by
      rw [hD]
      simp [isPrefixL, hc]
    show (if isPrefixL "Crawler".data (c :: (cs ++ "Crawler".data)) then []
      else c :: splitFirstAux (cs ++ "Crawler".data) "Crawler".data) = c :: cs
    rw [hfirst]
    simp only [Bool.false_eq_true, if_false]
    rw [ih (fun d hd => h d (List.mem_cons_of_mem c hd))]

lemma splitFirstAux_capitalize {T : List Char} (hne : T ≠ [])
    (hlow : ∀ c ∈ T, c ∈ lowerAlphabet)
    (hpre : isPrefixL "crawler".data T = false) :
    splitFirstAux (capitalizeL T ++ "Crawler".data) "Crawler".data = capitalizeL T := by
  cases T with
  | nil => exact absurd rfl hne
  | cons h0 t =>
    have ht : ∀ c ∈ t, c ∈ lowerAlphabet := fun d hd => hlow d (List.mem_cons_of_mem h0 hd)
    have hcap : capitalizeL (h0 :: t) = h0.toUpper :: t := by
      simp only [capitalizeL, map_toLower_of_lower ht]
    rw [hcap]
    have hfirst : isPrefixL "Crawler".data (h0.toUpper :: (t ++ "Crawler".data)) = false := by
      by_cases hc : h0 = 'c'
      · subst hc
        have h1 : isPrefixL "rawler".data t = false := by
          have : isPrefixL "crawler".data ('c' :: t)
              = (('c' == 'c') && isPrefixL "rawler".data t) := rfl
          rw [this] at hpre
          simpa using hpre
        have h2 : isPrefixL "rawler".data (t ++ 'C' :: "rawler".data) = false :=
          isPrefixL_append_C_false (by decide) t h1 ("rawler".data)
        have hstep : isPrefixL "Crawler".data ('c'.toUpper :: (t ++ "Crawler".data))
            = (('C' == 'c'.toUpper) && isPrefixL "rawler".data (t ++ "Crawler".data)) := rfl
        rw [hstep]
        have hCD : (t ++ "Crawler".data) = t ++ 'C' :: "rawler".data := rfl
        rw [hCD, h2, Bool.and_false]
      · have hup : ('C' == h0.toUpper) = false :=
          mem_lower_C_beq_upper (hlow h0 (List.mem_cons_self h0 t)) hc
        have hstep : isPrefixL "Crawler".data (h0.toUpper :: (t ++ "Crawler".data))
            = (('C' == h0.toUpper) && isPrefixL "rawler".data (t ++ "Crawler".data)) := rfl
        rw [hstep, hup, Bool.false_and]
    show (if isPrefixL "Crawler".data (h0.toUpper :: (t ++ "Crawler".data)) then []
      else h0.toUpper :: splitFirstAux (t ++ "Crawler".data) "Crawler".data)
      = h0.toUpper :: t
    rw [hfirst]
    simp only [Bool.false_eq_true, if_false]
    rw [splitFirstAux_lower_append ht]

lemma map_toLower_capitalizeL {T : List Char} (hlow : ∀ c ∈ T, c ∈ lowerAlphabet) :
    (capitalizeL T).map Char.toLower = T := by
  cases T with
  | nil => rfl
  | cons h0 t =>
    have ht : ∀ c ∈ t, c ∈ lowerAlphabet := fun d hd => hlow d (List.mem_cons_of_mem h0 hd)
    simp only [capitalizeL, map_toLower_of_lower ht, List.map_cons,
      mem_lower_upper_toLower (hlow h0 (List.mem_cons_self h0 t)), map_toLower_of_lower ht]

lemma pyLower_eq_self {T : String} (h : ∀ c ∈ T.data, c ∈ lowerAlphabet) : pyLower T = T :=
  String.ext (map_toLower_of_lower h)

/-- The source's module-path derivation, applied to the class name `main`
builds from a valid type name, yields exactly the conventional
`crawlers.<lower(T)>_crawler` path. -/
lemma deriveModuleName_valid {T : String} (hT : ValidTypeName T) :
    deriveModuleName "crawlers" (pyCapitalize T ++ "Crawler")
      = "crawlers." ++ pyLower T ++ "_crawler" := by
  obtain ⟨hne, hlow, hpre⟩ := hT
  apply String.ext
  simp only [deriveModuleName, pySplitHead, pyLower, pyCapitalize, String.data_append]
  rw [splitFirstAux_capitalize hne hlow hpre, map_toLower_capitalizeL hlow,
    map_toLower_of_lower hlow]
  simp

/-! ## Claim theorems -/

/-- C1: for every valid crawler type name `T`, resolution derives the module
path `crawlers.<lower(T)>_crawler` and the class name `<Capitalize(T)>Crawler`;
when the derived module or the class attribute does not exist it fails with a
`PluginNotFound`-class error (`ModuleNotFoundError` / `AttributeError`) and
performs no construction (empty event list, no instance); when both exist and
the class satisfies the base capability, it constructs exactly that class with
the supplied arguments. -/
theorem c1_plugin_resolution (mods : ModuleRegistry) (T : String) (args : CrawlerArgs)
    (ap : String) (path : List String) (hT : ValidTypeName T) :
    deriveModuleName "crawlers" (pyCapitalize T ++ "Crawler")
        = "crawlers." ++ pyLower T ++ "_crawler"
  ∧ pyLower T = T
  ∧ (List.lookup ("crawlers." ++ pyLower T ++ "_crawler") mods = none →
      instantiate_crawler mods "Crawler" ap "crawlers" (pyCapitalize T ++ "Crawler") args path
        = ⟨ap :: path, [],
            Except.error (ResolveError.moduleNotFound ("crawlers." ++ pyLower T ++ "_crawler"))⟩
      ∧ (ResolveError.moduleNotFound
          ("crawlers." ++ pyLower T ++ "_crawler")).isPluginNotFound = true)
  ∧ (∀ md, List.lookup ("crawlers." ++ pyLower T ++ "_crawler") mods = some md →
      List.lookup (pyCapitalize T ++ "Crawler") md.attrs = none →
      instantiate_crawler mods "Crawler" ap "crawlers" (pyCapitalize T ++ "Crawler") args path
        = ⟨ap :: path, [],
            Except.error (ResolveError.attributeNotFound (pyCapitalize T ++ "Crawler"))⟩
      ∧ (ResolveError.attributeNotFound (pyCapitalize T ++ "Crawler")).isPluginNotFound = true)
  ∧ (∀ md cls, List.lookup ("crawlers." ++ pyLower T ++ "_crawler") mods = some md →
      List.lookup (pyCapitalize T ++ "Crawler") md.attrs = some cls →
      cls.superclasses.contains "Crawler" = true →
      instantiate_crawler mods "Crawler" ap "crawlers" (pyCapitalize T ++ "Crawler") args path
        = ⟨ap :: path, [Event.construct (pyCapitalize T ++ "Crawler") args],
            Except.ok ⟨pyCapitalize T ++ "Crawler", args⟩⟩) := by
  have hd := deriveModuleName_valid hT
  refine ⟨hd, pyLower_eq_self hT.2.1, ?_, ?_, ?_⟩
  · intro hm
    exact ⟨by simp only [instantiate_crawler, hd, hm], rfl⟩
  · intro md hm ha
    exact ⟨by simp only [instantiate_crawler, hd, hm, ha], rfl⟩
  · intro md cls hm ha hs
    simp only [instantiate_crawler, hd, hm, ha, hs, if_true]

instance (T : String) : Decidable (ValidTypeName T) := by
  unfold ValidTypeName
  infer_instance

/-- Witness for C1: resolving the valid type name `website` against a module
universe holding `crawlers/website_crawler.py` constructs `WebsiteCrawler`. -/
theorem c1_plugin_resolution_witness :
    instantiate_crawler scenarioModules "Crawler" "/app/crawlers" "crawlers"
      (pyCapitalize "website" ++ "Crawler") scenarioArgs []
    = ⟨["/app/crawlers"], [Event.construct (pyCapitalize "website" ++ "Crawler") scenarioArgs],
        Except.ok ⟨pyCapitalize "website" ++ "Crawler", scenarioArgs⟩⟩ :=
  (c1_plugin_resolution scenarioModules "website" scenarioArgs "/app/crawlers" []
    (by decide)).2.2.2.2 ⟨[("WebsiteCrawler", websiteClass)]⟩ websiteClass
    (by decide) (by decide) (by decide)

/-- C6: when the resolved class is not a subclass of the base class, the
resolver fails with a `TypeMismatch`-class `TypeError` carrying the found
class name and the required base name, and its event list is empty: the
constructor is never called. -/
theorem c6_type_mismatch (mods : ModuleRegistry) (base ap folder className : String)
    (args : CrawlerArgs) (path : List String) (md : PyModule) (cls : PyClass)
    (hm : List.lookup (deriveModuleName folder className) mods = some md)
    (ha : List.lookup className md.attrs = some cls)
    (hs : cls.superclasses.contains base = false) :
    instantiate_crawler mods base ap folder className args path
      = ⟨ap :: path, [], Except.error (ResolveError.typeMismatch className base)⟩ := by
  have hs' : base ∉ cls.superclasses := by simpa using hs
  simp [instantiate_crawler, hm, ha, hs']

/-- A class that is not a subclass of the `Crawler` base. -/
def badClass : PyClass := ⟨["FooCrawler", "object"]⟩

/-- A module universe whose `crawlers/foo_crawler.py` exposes a class that
does not satisfy the base capability. -/
def badModules : ModuleRegistry := [("crawlers.foo_crawler", ⟨[("FooCrawler", badClass)]⟩)]

/-- Witness for C6: resolving `FooCrawler` against `badModules` raises the
`TypeMismatch` error and constructs nothing. -/
theorem c6_type_mismatch_witness :
    instantiate_crawler badModules "Crawler" "/app/crawlers" "crawlers" "FooCrawler"
      scenarioArgs []
      = ⟨["/app/crawlers"], [], Except.error (ResolveError.typeMismatch "FooCrawler" "Crawler")⟩ :=
  c6_type_mismatch badModules "Crawler" "/app/crawlers" "crawlers" "FooCrawler" scenarioArgs []
    ⟨[("FooCrawler", badClass)]⟩ badClass (by decide) (by decide) (by decide)

/-- C9 counterexample: invoking the resolver twice with the same search
location does not leave `sys.path` in the same state as invoking it once —
`sys.path.insert(0, ...)` runs unconditionally, so the second call prepends
a second copy of the location. -/
theorem c9_path_counterexample :
    (instantiate_crawler [] "Crawler" "/app/crawlers" "crawlers" "WebsiteCrawler" scenarioArgs
      ((instantiate_crawler [] "Crawler" "/app/crawlers" "crawlers" "WebsiteCrawler"
        scenarioArgs ["lib"]).sysPath)).sysPath
    ≠ (instantiate_crawler [] "Crawler" "/app/crawlers" "crawlers" "WebsiteCrawler"
        scenarioArgs ["lib"]).sysPath := by decide

/-- C9 amended: the resolver's only process-wide side effect is prepending
the (absolutized) search location to the module search path; this happens on
every call, so repeated invocation is not idempotent on the path as a list
(each call adds another copy at the front), although the set of path entries
— and hence which modules are findable — is unchanged by repetition. -/
theorem c9_path_amended (mods : ModuleRegistry) (base ap folder className : String)
    (args : CrawlerArgs) (path : List String) :
    (instantiate_crawler mods base ap folder className args path).sysPath = ap :: path
  ∧ (instantiate_crawler mods base ap folder className args
      ((instantiate_crawler mods base ap folder className args path).sysPath)).sysPath
      = ap :: ap :: path
  ∧ (∀ x, x ∈ ap :: ap :: path ↔ x ∈ ap :: path) := by
  refine ⟨rfl, rfl, fun x => ?_⟩
  simp [List.mem_cons]

/-- C5: the merge step overwrites the configuration's `vectara.api_key`,
`vectara.customer_id` and `vectara.corpus_id` with the environment-sourced
values unconditionally, for an arbitrary loaded configuration document; the
corpus id is the `int(...)`-coerced value of the environment string. -/
theorem c5_env_precedence (cfg : ConfigFile) (k cust corpStr : String) (n : Int)
    (h : pyIntOfString corpStr = some n) :
    (mergeEnv cfg k cust n).vectara.api_key = some k
  ∧ (mergeEnv cfg k cust n).vectara.customer_id = some cust
  ∧ (mergeEnv cfg k cust n).vectara.corpus_id = some n := ⟨rfl, rfl, rfl⟩

/-- Witness for C5, with the spec's example coercion of `"482"` to `482`. -/
theorem c5_env_precedence_witness :
    (mergeEnv scenarioFile "k" "cust-id" 482).vectara.api_key = some "k"
  ∧ (mergeEnv scenarioFile "k" "cust-id" 482).vectara.customer_id = some "cust-id"
  ∧ (mergeEnv scenarioFile "k" "cust-id" 482).vectara.corpus_id = some 482 :=
  c5_env_precedence scenarioFile "k" "cust-id" "482" 482 (by decide)

/-- C2: the end-to-end scenario.  With environment
`{CONFIG_FILE=cfg.yaml, PROFILE=p, VECTARA_API_KEY=k, VECTARA_CUSTOMER_ID=1000,
VECTARA_CORPUS_ID=7}` and a config declaring `crawling.crawler_type: website`
with no endpoint override, the run resolves `crawlers.website_crawler`,
constructs `WebsiteCrawler` with `(merged cfg, "api.vectara.io", "1000", 7, "k")`
— the corpus id coerced to the numeric value `7`, the customer id passed as
the environment string — and calls `crawl()` exactly once, bracketed by the
start and finish log lines, with no token fetch and no reset POST. -/
theorem c2_end_to_end :
    mainRun scenarioWorld false = ⟨[
      Event.logInfo "Starting ingest.py",
      Event.logInfo "Config file: cfg.yaml",
      Event.logInfo "Profile name: p",
      Event.logInfo "Loaded configuration",
      Event.logInfo "Updated configuration with environment variables",
      Event.logInfo "Endpoint: api.vectara.io",
      Event.logInfo "Customer ID: 1000",
      Event.logInfo "Corpus ID: 7",
      Event.logInfo "API Key: k...",
      Event.logInfo "Crawler Type: website",
      Event.construct "WebsiteCrawler" scenarioArgs,
      Event.logInfo "Instantiated WebsiteCrawler",
      Event.logInfo "Starting crawl of type website...",
      Event.crawl,
      Event.logInfo "Finished crawl of type website..."], Outcome.normal⟩
  ∧ (mainRun scenarioWorld false).events.countP Event.isCrawl = 1
  ∧ (mainRun scenarioWorld false).events.countP Event.isTokenFetch = 0
  ∧ (mainRun scenarioWorld false).events.countP Event.isResetPost = 0 := by
  refine ⟨by decide, by decide, by decide, by decide⟩

/-- A world in which all five environment variables are set but the config
file cannot be loaded (no loadable document named `cfg.yaml`). -/
def unloadableWorld : World :=
  { env := scenarioEnv, configFiles := [], modules := [], abspath := id, sysPath := [],
    tokenResult := TokenOutcome.authError, resetStatus := 0, resetBody := "", crawlOk := true }

/-- C3 counterexample: when the config file cannot be loaded, `main` does not
abort cleanly — the `OmegaConf.load` call at ingest.py line 91 is not guarded,
so the load exception escapes `main` (the outcome is not `normal`). -/
theorem c3_counterexample :
    (mainRun unloadableWorld false).outcome = Outcome.configLoadError "cfg.yaml"
  ∧ (mainRun unloadableWorld false).outcome ≠ Outcome.normal := by decide

/-- C3 amended: a missing (or empty) required environment variable makes
`main` log the corresponding error and return cleanly — for the three
`VECTARA_*` variables this holds once the config document has loaded — but
an unloadable config document is not caught: its exception escapes `main`
uncaught. -/
theorem c3_amended (w : World) (flag : Bool) :
    (pyFalsy (List.lookup "CONFIG_FILE" w.env) = true →
      (mainRun w flag).outcome = Outcome.normal
      ∧ Event.logError "CONFIG_FILE environment variable not set" ∈ (mainRun w flag).events)
  ∧ (pyFalsy (List.lookup "CONFIG_FILE" w.env) = false →
      pyFalsy (List.lookup "PROFILE" w.env) = true →
      (mainRun w flag).outcome = Outcome.normal
      ∧ Event.logError "PROFILE environment variable not set" ∈ (mainRun w flag).events)
  ∧ (pyFalsy (List.lookup "CONFIG_FILE" w.env) = false →
      pyFalsy (List.lookup "PROFILE" w.env) = false →
      List.lookup ((List.lookup "CONFIG_FILE" w.env).getD "") w.configFiles = none →
      (mainRun w flag).outcome
        = Outcome.configLoadError ((List.lookup "CONFIG_FILE" w.env).getD "")
      ∧ (mainRun w flag).outcome ≠ Outcome.normal)
  ∧ (∀ cfg, pyFalsy (List.lookup "CONFIG_FILE" w.env) = false →
      pyFalsy (List.lookup "PROFILE" w.env) = false →
      List.lookup ((List.lookup "CONFIG_FILE" w.env).getD "") w.configFiles = some cfg →
      pyFalsy (List.lookup "VECTARA_API_KEY" w.env) = true →
      (mainRun w flag).outcome = Outcome.normal
      ∧ Event.logError "VECTARA_API_KEY environment variable not set" ∈ (mainRun w flag).events)
  ∧ (∀ cfg, pyFalsy (List.lookup "CONFIG_FILE" w.env) = false →
      pyFalsy (List.lookup "PROFILE" w.env) = false →
      List.lookup ((List.lookup "CONFIG_FILE" w.env).getD "") w.configFiles = some cfg →
      pyFalsy (List.lookup "VECTARA_API_KEY" w.env) = false →
      pyFalsy (List.lookup "VECTARA_CUSTOMER_ID" w.env) = true →
      (mainRun w flag).outcome = Outcome.normal
      ∧ Event.logError "VECTARA_CUSTOMER_ID environment variable not set"
          ∈ (mainRun w flag).events)
  ∧ (∀ cfg, pyFalsy (List.lookup "CONFIG_FILE" w.env) = false →
      pyFalsy (List.lookup "PROFILE" w.env) = false →
      List.lookup ((List.lookup "CONFIG_FILE" w.env).getD "") w.configFiles = some cfg →
      pyFalsy (List.lookup "VECTARA_API_KEY" w.env) = false →
      pyFalsy (List.lookup "VECTARA_CUSTOMER_ID" w.env) = false →
      pyFalsy (List.lookup "VECTARA_CORPUS_ID" w.env) = true →
      (mainRun w flag).outcome = Outcome.normal
      ∧ Event.logError "VECTARA_CORPUS_ID environment variable not set"
          ∈ (mainRun w flag).events) := by
  refine ⟨fun h1 => ?_, fun h1 h2 => ?_, fun h1 h2 h3 => ?_, fun cfg h1 h2 h3 h4 => ?_,
    fun cfg h1 h2 h3 h4 h5 => ?_, fun cfg h1 h2 h3 h4 h5 h6 => ?_⟩
  · constructor <;> simp [mainRun, h1]
  · constructor <;> simp [mainRun, h1, h2]
  · constructor <;> simp [mainRun, h1, h2, h3]
  · constructor <;> simp [mainRun, h1, h2, h3, h4]
  · constructor <;> simp [mainRun, h1, h2, h3, h4, h5]
  · constructor <;> simp [mainRun, h1, h2, h3, h4, h5, h6]

/-- At least one of the five required environment variables is absent. -/
def RequiredEnvMissing (w : World) : Prop :=
  List.lookup "CONFIG_FILE" w.env = none ∨ List.lookup "PROFILE" w.env = none
  ∨ List.lookup "VECTARA_API_KEY" w.env = none
  ∨ List.lookup "VECTARA_CUSTOMER_ID" w.env = none
  ∨ List.lookup "VECTARA_CORPUS_ID" w.env = none

/-- C4: whenever a required environment variable is absent, the run
short-circuits before any network call: the event trace contains no token
fetch, no reset POST and no crawl invocation. -/
theorem c4_no_network_when_missing (w : World) (flag : Bool) (h : RequiredEnvMissing w) :
    (mainRun w flag).events.countP Event.isNet = 0 := by
  by_cases h1 : pyFalsy (List.lookup "CONFIG_FILE" w.env) = true
  · simp [mainRun, h1, Event.isNet]
  · by_cases h2 : pyFalsy (List.lookup "PROFILE" w.env) = true
    · simp [mainRun, h1, h2, Event.isNet]
    · rcases hload : List.lookup ((List.lookup "CONFIG_FILE" w.env).getD "") w.configFiles
        with _ | cfg
      · simp [mainRun, h1, h2, hload, Event.isNet]
      · by_cases h3 : pyFalsy (List.lookup "VECTARA_API_KEY" w.env) = true
        · simp [mainRun, h1, h2, hload, h3, Event.isNet]
        · by_cases h4 : pyFalsy (List.lookup "VECTARA_CUSTOMER_ID" w.env) = true
          · simp [mainRun, h1, h2, hload, h3, h4, Event.isNet]
          · by_cases h5 : pyFalsy (List.lookup "VECTARA_CORPUS_ID" w.env) = true
            · simp [mainRun, h1, h2, hload, h3, h4, h5, Event.isNet]
            · exfalso
              rcases h with h | h | h | h | h <;> simp [h, pyFalsy] at h1 h2 h3 h4 h5

/-- A world with an empty environment: every required variable is absent. -/
def emptyWorld : World :=
  { env := [], configFiles := [], modules := [], abspath := id, sysPath := [],
    tokenResult := TokenOutcome.authError, resetStatus := 0, resetBody := "", crawlOk := true }

/-- Witness for C4 at the empty environment. -/
theorem c4_no_network_when_missing_witness :
    (mainRun emptyWorld false).events.countP Event.isNet = 0 :=
  c4_no_network_when_missing emptyWorld false (Or.inl rfl)

/-- C10: with all five environment variables set but `VECTARA_CORPUS_ID` not
parseable as an integer, `main` raises an uncaught `ValueError` at the
`int(...)` coercion — after the config document has loaded (the trace ends at
the `Loaded configuration` line) and before any resolution, network call or
crawl — instead of aborting cleanly. -/
theorem c10_corpus_id_value_error (w : World) (flag : Bool) (cn pn k cust corpStr : String)
    (cfg : ConfigFile)
    (h1 : List.lookup "CONFIG_FILE" w.env = some cn) (h1' : cn ≠ "")
    (h2 : List.lookup "PROFILE" w.env = some pn) (h2' : pn ≠ "")
    (h3 : List.lookup cn w.configFiles = some cfg)
    (h4 : List.lookup "VECTARA_API_KEY" w.env = some k) (h4' : k ≠ "")
    (h5 : List.lookup "VECTARA_CUSTOMER_ID" w.env = some cust) (h5' : cust ≠ "")
    (h6 : List.lookup "VECTARA_CORPUS_ID" w.env = some corpStr) (h6' : corpStr ≠ "")
    (h7 : pyIntOfString corpStr = none) :
    mainRun w flag = ⟨[Event.logInfo "Starting ingest.py",
      Event.logInfo ("Config file: " ++ cn),
      Event.logInfo ("Profile name: " ++ pn),
      Event.logInfo "Loaded configuration"], Outcome.valueError corpStr⟩
  ∧ Outcome.valueError corpStr ≠ Outcome.normal := by
  constructor
  · simp [mainRun, h1, h1', h2, h2', h3, h4, h4', h5, h5', h6, h6', h7, pyFalsy, pyOptStr]
  · simp

/-- The scenario world with `VECTARA_CORPUS_ID=abc`. -/
def abcWorld : World :=
  { env := [("CONFIG_FILE", "cfg.yaml"), ("PROFILE", "p"), ("VECTARA_API_KEY", "k"),
      ("VECTARA_CUSTOMER_ID", "1000"), ("VECTARA_CORPUS_ID", "abc")],
    configFiles := [("cfg.yaml", scenarioFile)], modules := scenarioModules,
    abspath := fun s => "/app/" ++ s, sysPath := [], tokenResult := TokenOutcome.authError,
    resetStatus := 0, resetBody := "", crawlOk := true }

/-- Witness for C10 at `VECTARA_CORPUS_ID=abc`. -/
theorem c10_corpus_id_value_error_witness :
    mainRun abcWorld false = ⟨[Event.logInfo "Starting ingest.py",
      Event.logInfo ("Config file: " ++ "cfg.yaml"),
      Event.logInfo ("Profile name: " ++ "p"),
      Event.logInfo "Loaded configuration"], Outcome.valueError "abc"⟩ :=
  (c10_corpus_id_value_error abcWorld false "cfg.yaml" "p" "k" "1000" "abc" scenarioFile
    (by decide) (by decide) (by decide) (by decide) (by decide) (by decide) (by decide)
    (by decide) (by decide) (by decide) (by decide) (by decide)).1

/-- C8: when the token fetch succeeds, `reset_corpus` always returns
normally (no exception reaches the caller); on HTTP 200 it logs the success
line, and on any other status it logs the status code and response body as
an error. -/
theorem c8_reset_error_handling (w : World) (endpoint customer_id : String) (corpus_id : Int)
    (auth_url auth_id auth_secret tok : String)
    (h : w.tokenResult = TokenOutcome.ok tok) :
    ((reset_corpus w endpoint customer_id corpus_id auth_url auth_id auth_secret).2 = none)
  ∧ (w.resetStatus = 200 →
      (reset_corpus w endpoint customer_id corpus_id auth_url auth_id auth_secret).1
        = [Event.tokenFetch, Event.resetPost 200,
           Event.logInfo ("Reset corpus " ++ toString corpus_id)])
  ∧ (w.resetStatus ≠ 200 →
      (reset_corpus w endpoint customer_id corpus_id auth_url auth_id auth_secret).1
        = [Event.tokenFetch, Event.resetPost w.resetStatus,
           Event.logError ("Error resetting corpus: " ++ toString w.resetStatus ++ " "
             ++ w.resetBody)]) := by
  refine ⟨?_, fun hs => ?_, fun hs => ?_⟩
  · by_cases hs : w.resetStatus = 200 <;> simp [reset_corpus, get_jwt_token, h, hs]
  · simp [reset_corpus, get_jwt_token, h, hs]
  · simp [reset_corpus, get_jwt_token, h, hs]

/-- The scenario world with auth configured, a succeeding token exchange and
an HTTP 200 reset response. -/
def resetOkWorld : World :=
  { env := scenarioEnv, configFiles := [("cfg.yaml", scenarioFile)],
    modules := scenarioModules, abspath := fun s => "/app/" ++ s, sysPath := [],
    tokenResult := TokenOutcome.ok "tok", resetStatus := 200, resetBody := "",
    crawlOk := true }

/-- Witness for C8 at an HTTP 200 reset response. -/
theorem c8_reset_error_handling_witness :
    ((reset_corpus resetOkWorld "api.vectara.io" "1000" 7 "auth.url" "id" "secret").2 = none)
  ∧ (reset_corpus resetOkWorld "api.vectara.io" "1000" 7 "auth.url" "id" "secret").1
      = [Event.tokenFetch, Event.resetPost 200,
         Event.logInfo ("Reset corpus " ++ toString (7 : Int))] := by
  have h := c8_reset_error_handling resetOkWorld "api.vectara.io" "1000" 7
    "auth.url" "id" "secret" "tok" (by decide)
  exact ⟨h.1, h.2.1 (by decide)⟩

/-! ## Reset gating (C7) -/

/-- Resolution either performs no events (failure before instantiation) or
exactly the one constructor call. -/
lemma instantiate_events_shape (mods : ModuleRegistry) (base ap folder className : String)
    (args : CrawlerArgs) (path : List String) :
    (instantiate_crawler mods base ap folder className args path).events = []
  ∨ (instantiate_crawler mods base ap folder className args path).events
      = [Event.construct className args] := by
  rcases hm : List.lookup (deriveModuleName folder className) mods with _ | md
  · left; simp [instantiate_crawler, hm]
  · rcases ha : List.lookup className md.attrs with _ | cls
    · left; simp [instantiate_crawler, hm, ha]
    · by_cases hs : base ∈ cls.superclasses
      · right; simp [instantiate_crawler, hm, ha, hs]
      · left; simp [instantiate_crawler, hm, ha, hs]

/-- With the reset switch disabled, the resolve/crawl tail of the run adds
no event counted by a predicate that ignores logs, construction and the
crawl call. -/
lemma runCrawlerPhase_disabled_countP (w : World) (events : List Event) (cfg' : ConfigFile)
    (endpoint customer_id : String) (corpus_id : Int) (api_key crawler_type : String)
    (p : Event → Bool)
    (hLog : ∀ m, p (Event.logInfo m) = false)
    (hCrawl : p Event.crawl = false)
    (hCon : ∀ cn a, p (Event.construct cn a) = false) :
    (runCrawlerPhase w false events cfg' endpoint customer_id corpus_id
        api_key crawler_type).events.countP p = events.countP p := by
  rcases instantiate_events_shape w.modules "Crawler" (w.abspath "crawlers") "crawlers"
      (pyCapitalize crawler_type ++ "Crawler") ⟨cfg', endpoint, customer_id, corpus_id, api_key⟩
      w.sysPath with he | he <;>
  rcases hres : (instantiate_crawler w.modules "Crawler" (w.abspath "crawlers") "crawlers"
      (pyCapitalize crawler_type ++ "Crawler") ⟨cfg', endpoint, customer_id, corpus_id, api_key⟩
      w.sysPath).result with e | i <;>
  by_cases hok : w.crawlOk <;>
  simp [runCrawlerPhase, crawlPhase, hres, he, hok, hLog, hCrawl, hCon,
    List.countP_append, List.countP_cons]

/-- A reset-disabled run never performs an event counted by a predicate that
ignores logs, construction and the crawl call (in particular, no token fetch
and no reset POST). -/
lemma mainRun_disabled_countP (w : World) (p : Event → Bool)
    (hLog : ∀ m, p (Event.logInfo m) = false)
    (hLogE : ∀ m, p (Event.logError m) = false)
    (hCrawl : p Event.crawl = false)
    (hCon : ∀ cn a, p (Event.construct cn a) = false) :
    (mainRun w false).events.countP p = 0 := by
  by_cases h1 : pyFalsy (List.lookup "CONFIG_FILE" w.env) = true
  · simp [mainRun, h1, hLog, hLogE]
  · by_cases h2 : pyFalsy (List.lookup "PROFILE" w.env) = true
    · simp [mainRun, h1, h2, hLog, hLogE]
    · rcases hload : List.lookup ((List.lookup "CONFIG_FILE" w.env).getD "") w.configFiles
        with _ | cfg
      · simp [mainRun, h1, h2, hload, hLog, hLogE]
      · by_cases h3 : pyFalsy (List.lookup "VECTARA_API_KEY" w.env) = true
        · simp [mainRun, h1, h2, hload, h3, hLog, hLogE]
        · by_cases h4 : pyFalsy (List.lookup "VECTARA_CUSTOMER_ID" w.env) = true
          · simp [mainRun, h1, h2, hload, h3, h4, hLog, hLogE]
          · by_cases h5 : pyFalsy (List.lookup "VECTARA_CORPUS_ID" w.env) = true
            · simp [mainRun, h1, h2, hload, h3, h4, h5, hLog, hLogE]
            · rcases hparse : pyIntOfString ((List.lookup "VECTARA_CORPUS_ID" w.env).getD "")
                with _ | n
              · simp [mainRun, h1, h2, hload, h3, h4, h5, hparse, hLog, hLogE]
              · rcases hct : cfg.crawling.crawler_type with _ | ct
                · simp [mainRun, h1, h2, hload, h3, h4, h5, hparse, mergeEnv, hct, hLog, hLogE]
                · have hphase := runCrawlerPhase_disabled_countP w
                    ([Event.logInfo "Starting ingest.py",
                      Event.logInfo ("Config file: "
                        ++ pyOptStr (List.lookup "CONFIG_FILE" w.env)),
                      Event.logInfo ("Profile name: "
                        ++ pyOptStr (List.lookup "PROFILE" w.env)),
                      Event.logInfo "Loaded configuration",
                      Event.logInfo "Updated configuration with environment variables"])
                    (mergeEnv cfg ((List.lookup "VECTARA_API_KEY" w.env).getD "")
                      ((List.lookup "VECTARA_CUSTOMER_ID" w.env).getD "") n)
                    (cfg.vectara.endpoint.getD "api.vectara.io")
                    ((List.lookup "VECTARA_CUSTOMER_ID" w.env).getD "") n
                    ((List.lookup "VECTARA_API_KEY" w.env).getD "") ct p hLog hCrawl hCon
                  simp only [mainRun, h1, h2, hload, h3, h4, h5, hparse, mergeEnv, hct,
                    Bool.false_eq_true, if_false, List.cons_append, List.nil_append]
                  simp only [mergeEnv] at hphase
                  rw [hphase]
                  simp [hLog, hLogE]

/-- The full happy-path trace of a reset-enabled run: one token fetch and one
reset POST, the status-dependent log line, the 5-unit settle sleep, and only
then the crawl, bracketed by its start/finish markers. -/
lemma mainRun_enabled_trace (w : World) (cn pn k cust corpStr ct tok au ai asec : String)
    (n : Int) (cfg : ConfigFile) (md : PyModule) (cls : PyClass)
    (h1 : List.lookup "CONFIG_FILE" w.env = some cn) (h1' : cn ≠ "")
    (h2 : List.lookup "PROFILE" w.env = some pn) (h2' : pn ≠ "")
    (h3 : List.lookup cn w.configFiles = some cfg)
    (h4 : List.lookup "VECTARA_API_KEY" w.env = some k) (h4' : k ≠ "")
    (h5 : List.lookup "VECTARA_CUSTOMER_ID" w.env = some cust) (h5' : cust ≠ "")
    (h6 : List.lookup "VECTARA_CORPUS_ID" w.env = some corpStr) (h6' : corpStr ≠ "")
    (h7 : pyIntOfString corpStr = some n)
    (h8 : cfg.crawling.crawler_type = some ct)
    (h9 : List.lookup (deriveModuleName "crawlers" (pyCapitalize ct ++ "Crawler")) w.modules
      = some md)
    (h10 : List.lookup (pyCapitalize ct ++ "Crawler") md.attrs = some cls)
    (h11 : cls.superclasses.contains "Crawler" = true)
    (h12 : cfg.vectara.auth_url = some au) (h13 : cfg.vectara.auth_id = some ai)
    (h14 : cfg.vectara.auth_secret = some asec)
    (h15 : w.tokenResult = TokenOutcome.ok tok)
    (h16 : w.crawlOk = true) :
    (mainRun w true).events
      = [Event.logInfo "Starting ingest.py",
         Event.logInfo ("Config file: " ++ cn),
         Event.logInfo ("Profile name: " ++ pn),
         Event.logInfo "Loaded configuration",
         Event.logInfo "Updated configuration with environment variables",
         Event.logInfo ("Endpoint: " ++ cfg.vectara.endpoint.getD "api.vectara.io"),
         Event.logInfo ("Customer ID: " ++ cust),
         Event.logInfo ("Corpus ID: " ++ toString n),
         Event.logInfo ("API Key: " ++ pyTake 5 k ++ "..."),
         Event.logInfo ("Crawler Type: " ++ ct),
         Event.construct (pyCapitalize ct ++ "Crawler")
           ⟨mergeEnv cfg k cust n, cfg.vectara.endpoint.getD "api.vectara.io", cust, n, k⟩,
         Event.logInfo ("Instantiated " ++ pyCapitalize ct ++ "Crawler"),
         Event.logInfo "Resetting corpus",
         Event.tokenFetch,
         Event.resetPost w.resetStatus]
      ++ (if w.resetStatus == 200 then [Event.logInfo ("Reset corpus " ++ toString n)]
          else [Event.logError ("Error resetting corpus: " ++ toString w.resetStatus
            ++ " " ++ w.resetBody)])
      ++ [Event.sleep 5,
         Event.logInfo ("Starting crawl of type " ++ ct ++ "..."),
         Event.crawl,
         Event.logInfo ("Finished crawl of type " ++ ct ++ "...")] := by
  have h11' : "Crawler" ∈ cls.superclasses := by simpa using h11
  by_cases hst : w.resetStatus = 200 <;>
  simp [mainRun, runCrawlerPhase, crawlPhase, reset_corpus, get_jwt_token, instantiate_crawler,
    mergeEnv, h1, h1', h2, h2', h3, h4, h4', h5, h5', h6, h6', h7, h8, h9, h10, h11', h12,
    h13, h14, h15, h16, hst, pyFalsy, pyOptStr]

/-- C7: a reset-disabled run (the source default) performs no reset POST and
no token fetch, for every world; a reset-enabled run along the happy path
performs exactly one token fetch and exactly one reset POST, followed by the
blocking 5-unit settle sleep, all before the crawl call — as shown by its
full event trace. -/
theorem c7_reset_gating (w w' : World) (cn pn k cust corpStr ct tok au ai asec : String)
    (n : Int) (cfg : ConfigFile) (md : PyModule) (cls : PyClass)
    (h1 : List.lookup "CONFIG_FILE" w'.env = some cn) (h1' : cn ≠ "")
    (h2 : List.lookup "PROFILE" w'.env = some pn) (h2' : pn ≠ "")
    (h3 : List.lookup cn w'.configFiles = some cfg)
    (h4 : List.lookup "VECTARA_API_KEY" w'.env = some k) (h4' : k ≠ "")
    (h5 : List.lookup "VECTARA_CUSTOMER_ID" w'.env = some cust) (h5' : cust ≠ "")
    (h6 : List.lookup "VECTARA_CORPUS_ID" w'.env = some corpStr) (h6' : corpStr ≠ "")
    (h7 : pyIntOfString corpStr = some n)
    (h8 : cfg.crawling.crawler_type = some ct)
    (h9 : List.lookup (deriveModuleName "crawlers" (pyCapitalize ct ++ "Crawler")) w'.modules
      = some md)
    (h10 : List.lookup (pyCapitalize ct ++ "Crawler") md.attrs = some cls)
    (h11 : cls.superclasses.contains "Crawler" = true)
    (h12 : cfg.vectara.auth_url = some au) (h13 : cfg.vectara.auth_id = some ai)
    (h14 : cfg.vectara.auth_secret = some asec)
    (h15 : w'.tokenResult = TokenOutcome.ok tok)
    (h16 : w'.crawlOk = true) :
    (mainRun w false).events.countP Event.isResetPost = 0
  ∧ (mainRun w false).events.countP Event.isTokenFetch = 0
  ∧ (mainRun w' true).events
      = [Event.logInfo "Starting ingest.py",
         Event.logInfo ("Config file: " ++ cn),
         Event.logInfo ("Profile name: " ++ pn),
         Event.logInfo "Loaded configuration",
         Event.logInfo "Updated configuration with environment variables",
         Event.logInfo ("Endpoint: " ++ cfg.vectara.endpoint.getD "api.vectara.io"),
         Event.logInfo ("Customer ID: " ++ cust),
         Event.logInfo ("Corpus ID: " ++ toString n),
         Event.logInfo ("API Key: " ++ pyTake 5 k ++ "..."),
         Event.logInfo ("Crawler Type: " ++ ct),
         Event.construct (pyCapitalize ct ++ "Crawler")
           ⟨mergeEnv cfg k cust n, cfg.vectara.endpoint.getD "api.vectara.io", cust, n, k⟩,
         Event.logInfo ("Instantiated " ++ pyCapitalize ct ++ "Crawler"),
         Event.logInfo "Resetting corpus",
         Event.tokenFetch,
         Event.resetPost w'.resetStatus]
      ++ (if w'.resetStatus == 200 then [Event.logInfo ("Reset corpus " ++ toString n)]
          else [Event.logError ("Error resetting corpus: " ++ toString w'.resetStatus
            ++ " " ++ w'.resetBody)])
      ++ [Event.sleep 5,
         Event.logInfo ("Starting crawl of type " ++ ct ++ "..."),
         Event.crawl,
         Event.logInfo ("Finished crawl of type " ++ ct ++ "...")]
  ∧ (mainRun w' true).events.countP Event.isTokenFetch = 1
  ∧ (mainRun w' true).events.countP Event.isResetPost = 1 := by
  have htrace := mainRun_enabled_trace w' cn pn k cust corpStr ct tok au ai asec n cfg md cls
    h1 h1' h2 h2' h3 h4 h4' h5 h5' h6 h6' h7 h8 h9 h10 h11 h12 h13 h14 h15 h16
  refine ⟨?_, ?_, htrace, ?_, ?_⟩
  · exact mainRun_disabled_countP w Event.isResetPost (fun m => rfl) (fun m => rfl) rfl
      (fun cn a => rfl)
  · exact mainRun_disabled_countP w Event.isTokenFetch (fun m => rfl) (fun m => rfl) rfl
      (fun cn a => rfl)
  · rw [htrace]
    by_cases hst : w'.resetStatus = 200 <;>
    simp [hst, List.countP_append, List.countP_cons, Event.isTokenFetch]
  · rw [htrace]
    by_cases hst : w'.resetStatus = 200 <;>
    simp [hst, List.countP_append, List.countP_cons, Event.isResetPost]

/-- A config document that also carries the auth fields the reset path
reads. -/
def resetFile : ConfigFile :=
  ⟨⟨none, none, none, none, some "auth.url", some "auth-id", some "auth-secret"⟩,
   ⟨some "website"⟩⟩

/-- The scenario world with auth configured, a succeeding token exchange and
an HTTP 200 reset response, for a reset-enabled run. -/
def resetHappyWorld : World :=
  { env := scenarioEnv, configFiles := [("cfg.yaml", resetFile)],
    modules := scenarioModules, abspath := fun s => "/app/" ++ s, sysPath := [],
    tokenResult := TokenOutcome.ok "tok", resetStatus := 200, resetBody := "",
    crawlOk := true }

/-- Witness for C7: a disabled run in the empty world performs no reset POST;
the enabled happy-path run performs exactly one token fetch and one reset
POST. -/
theorem c7_reset_gating_witness :
    (mainRun emptyWorld false).events.countP Event.isResetPost = 0
  ∧ (mainRun resetHappyWorld true).events.countP Event.isTokenFetch = 1
  ∧ (mainRun resetHappyWorld true).events.countP Event.isResetPost = 1 := by
  have h := c7_reset_gating emptyWorld resetHappyWorld "cfg.yaml" "p" "k" "1000" "7" "website"
    "tok" "auth.url" "auth-id" "auth-secret" 7 resetFile
    ⟨[("WebsiteCrawler", websiteClass)]⟩ websiteClass
    (by decide) (by decide) (by decide) (by decide) (by decide) (by decide) (by decide)
    (by decide) (by decide) (by decide) (by decide) (by decide) (by decide) (by decide)
    (by decide) (by decide) (by decide) (by decide) (by decide) (by decide) (by decide)
  exact ⟨h.1, h.2.2.2.1, h.2.2.2.2⟩

/-- Witness for C3 (amended): in the world whose config file cannot be
loaded, the load failure escapes `main` rather than aborting cleanly. -/
theorem c3_amended_witness :
    (mainRun unloadableWorld false).outcome = Outcome.configLoadError "cfg.yaml"
  ∧ (mainRun unloadableWorld false).outcome ≠ Outcome.normal := by
  have h := (c3_amended unloadableWorld false).2.2.1 (by decide) (by decide) (by decide)
  exact ⟨h.1, h.2⟩
